import Mathlib

/-!
Verification of the well-data normalization pipeline (normalize.py) of the
ab-public-well-data repository: identifier codec functions, production
aggregation, licence/status merging and group-wise gap filling, embedded
shallowly over lists of characters and a small typed table model.
-/

namespace WellData

/-! ## String helpers mirroring the Python string operations used -/

/-- Python str.strip(' ') and polars strip_chars(' '): remove the character
from both ends of the string. -/
def stripSpaces (l : List Char) : List Char :=
  ((l.dropWhile (fun c => c = ' ')).reverse.dropWhile (fun c => c = ' ')).reverse

/-- Python str.lstrip('0'): remove leading zero characters. -/
def lstripZeros (l : List Char) : List Char :=
  l.dropWhile (fun c => c = '0')

/-- Python str.zfill(n): left-pad with zeros to width n, keeping a leading
sign character in place. -/
def zfill (n : Nat) (l : List Char) : List Char :=
  match l with
  | c :: rest =>
    if c = '+' ∨ c = '-' then
      c :: (List.replicate (n - 1 - rest.length) '0' ++ rest)
    else
      List.replicate (n - l.length) '0' ++ l
  | [] => List.replicate n '0'

/-- Python single-element indexing s[i] with negative-index wrap-around;
none models an IndexError. -/
def pyIdx (l : List Char) (i : Int) : Option Char :=
  if 0 ≤ i then l.get? i.toNat
  else if 0 ≤ (l.length : Int) + i then l.get? ((l.length : Int) + i).toNat
  else none

/-- Normalize a Python slice bound to an absolute position in 0..len. -/
def pyBound (len : Nat) (i : Int) : Nat :=
  if i < 0 then (max 0 ((len : Int) + i)).toNat else min i.toNat len

/-- Python slicing s[a:b] (never raises). -/
def pySlice (l : List Char) (a b : Int) : List Char :=
  (l.take (pyBound l.length b)).drop (pyBound l.length a)

/-- Python slicing s[a:] (never raises). -/
def pySliceFrom (l : List Char) (a : Int) : List Char :=
  l.drop (pyBound l.length a)

/-- Python substring containment: sub in s. -/
def listContains (sub l : List Char) : Bool :=
  match l with
  | [] => sub = []
  | _ :: rest => sub.isPrefixOf l || listContains sub rest

/-! ## Identifier codec (normalize.py lines 10-167) -/

/-- standardize_st1_license on one cell: str.slice(2) then strip_chars(' '). -/
def standardize_st1_core (l : List Char) : List Char :=
  stripSpaces (l.drop 2)

/-- standardize_st37_license on one cell: strip_chars(' '). -/
def standardize_st37_core (l : List Char) : List Char :=
  stripSpaces l

/-- Body of convert_display_uwi after the invalid-input guard: strip
non-alphanumerics, short-circuit when already starting with 1 and
containing W4, otherwise prefix 1 and insert 0 before the last character. -/
def convertDisplayCore (l : List Char) : List Char :=
  let stripped := l.filter Char.isAlphanum
  if stripped.head? = some '1' ∧ listContains ['W', '4'] stripped then
    stripped
  else
    let prefixed := '1' :: stripped
    prefixed.dropLast ++ ['0'] ++ [prefixed.getLastD '1']

/-- convert_display_uwi (inner function of
convert_uwi_display_to_petrinex_format): first component is the returned
value, second is whether a warning was logged. A None input is modelled as
none. -/
def convert_display_uwi (x : Option String) : Option String × Bool :=
  match x with
  | none => (none, true)
  | some s =>
    if s = "" then (some s, true)
    else (some (String.mk (convertDisplayCore s.data)), false)

/-- Body of convert_uwi after the guard: clean, short-circuit on W4,
otherwise extract offset components; none models an uncaught IndexError
(swallowed by the except clause of the source). -/
def convertUwiCore (l : List Char) : Option (List Char) :=
  let clean := l.filter Char.isAlphanum
  if listContains ['W', '4'] clean then some clean
  else
    let len : Int := (clean.length : Int)
    let off : Int := max 0 (14 - len)
    let meridianOpt : Option (List Char) :=
      if 2 - off < len then (pyIdx clean (2 - off)).map (fun c => [c])
      else some ['4']
    match meridianOpt with
    | none => none
    | some meridian =>
      let range0 := if 3 - off < len then pySlice clean (3 - off) (6 - off) else ['0', '0', '0']
      let township0 := if 6 - off < len then pySlice clean (6 - off) (9 - off) else ['0', '0', '0']
      let sec := if 9 - off < len then pySlice clean (9 - off) (11 - off) else ['0', '0']
      let lsd := if 11 - off < len then pySlice clean (11 - off) (13 - off) else ['0', '0']
      let eventSeq := if 13 - off < len then pySliceFrom clean (13 - off) else ['0']
      let rangeClean := if lstripZeros range0 = [] then ['0'] else lstripZeros range0
      let townshipClean := if lstripZeros township0 = [] then ['0'] else lstripZeros township0
      some (['1'] ++ lsd ++ sec ++ zfill 3 townshipClean ++ zfill 2 rangeClean
            ++ meridian ++ ['W', '4'] ++ zfill 2 eventSeq)

/-- convert_uwi (inner function of convert_raw_uwi_to_petrinex_format):
first component is the returned value, second is whether a warning was
logged (invalid input, or an exception swallowed by the except clause). -/
def convert_uwi (x : Option String) : Option String × Bool :=
  match x with
  | none => (none, true)
  | some s =>
    if s = "" ∨ s.length < 14 then (some s, true)
    else
      match convertUwiCore s.data with
      | none => (some s, true)
      | some r => (some (String.mk r), false)

/-- String-level standardize_st1_license (registry side). -/
def standardize_st1_license (s : String) : String :=
  String.mk (standardize_st1_core s.data)

/-- String-level standardize_st37_license (status-listing side). -/
def standardize_st37_license (s : String) : String :=
  String.mk (standardize_st37_core s.data)

/-- Modelled from the spec: the fixed-offset reassembly formula of section
4.1 — components meridian(1), range(3), township(3), section(2), lsd(2),
event(remainder) at offsets 2, 3, 6, 9, 11, 13 of the cleaned value, with
leading zeros stripped from range and township (defaulting to 0), put back
together as 1 + lsd + section + township.zfill(3) + range.zfill(2) +
meridian + W4 + event.zfill(2). Used to compare the source's
dynamic-offset computation with the spec's fixed-offset description. -/
def petrinexFixedOffsets (clean : List Char) : List Char :=
  let meridian := (clean.drop 2).take 1
  let range0 := (clean.drop 3).take 3
  let township0 := (clean.drop 6).take 3
  let sec := (clean.drop 9).take 2
  let lsd := (clean.drop 11).take 2
  let eventSeq := clean.drop 13
  let rangeClean := if lstripZeros range0 = [] then ['0'] else lstripZeros range0
  let townshipClean := if lstripZeros township0 = [] then ['0'] else lstripZeros township0
  ['1'] ++ lsd ++ sec ++ zfill 3 townshipClean ++ zfill 2 rangeClean
    ++ meridian ++ ['W', '4'] ++ zfill 2 eventSeq


/-! ## Helper lemmas for the codec claims -/

theorem convertDisplayCore_all_isAlphanum (l : List Char) :
    ∀ c ∈ convertDisplayCore l, c.isAlphanum := by
  intro c hc
  unfold convertDisplayCore at hc
  by_cases h : (l.filter Char.isAlphanum).head? = some '1' ∧
      listContains ['W', '4'] (l.filter Char.isAlphanum) = true
  · rw [if_pos h] at hc
    exact (List.mem_filter.mp hc).2
  · rw [if_neg h] at hc
    rcases List.mem_append.mp hc with hc1 | hc2
    · rcases List.mem_append.mp hc1 with hc3 | hc4
      · have hm : c ∈ '1' :: l.filter Char.isAlphanum := List.dropLast_subset _ hc3
        rcases List.mem_cons.mp hm with rfl | hmf
        · decide
        · exact (List.mem_filter.mp hmf).2
      · have : c = '0' := by simpa using hc4
        subst this; decide
    · have hc5 : c = ('1' :: l.filter Char.isAlphanum).getLastD '1' := by simpa using hc2
      subst hc5
      have hmem : ('1' :: l.filter Char.isAlphanum).getLastD '1' ∈
          ('1' :: l.filter Char.isAlphanum) := by
        rw [List.getLastD_eq_getLast?,
          List.getLast?_eq_getLast _ (List.cons_ne_nil _ _), Option.getD_some]
        exact List.getLast_mem _
      rcases List.mem_cons.mp hmem with he | hmf
      · rw [he]; decide
      · exact (List.mem_filter.mp hmf).2



theorem pySlice_eq_drop_take (l : List Char) (a b : Int) (h0 : 0 ≤ a) (hab : a ≤ b)
    (hb : b ≤ (l.length : Int)) :
    pySlice l a b = (l.drop a.toNat).take (b.toNat - a.toNat) := by
  unfold pySlice pyBound
  rw [if_neg (show ¬(a < 0) by omega), if_neg (show ¬(b < 0) by omega)]
  have haN : a.toNat ≤ l.length := by omega
  have hbN : b.toNat ≤ l.length := by omega
  rw [min_eq_left haN, min_eq_left hbN]
  rw [List.take_drop]
  have hsum : a.toNat + (b.toNat - a.toNat) = b.toNat := by omega
  rw [hsum]

theorem pySliceFrom_eq_drop (l : List Char) (a : Int) (h0 : 0 ≤ a)
    (hl : a ≤ (l.length : Int)) :
    pySliceFrom l a = l.drop a.toNat := by
  unfold pySliceFrom pyBound
  rw [if_neg (show ¬(a < 0) by omega)]
  have haN : a.toNat ≤ l.length := by omega
  rw [min_eq_left haN]

theorem pyIdx_singleton (l : List Char) (i : Int) (h0 : 0 ≤ i) (hl : i < (l.length : Int)) :
    (pyIdx l i).map (fun c => [c]) = some ((l.drop i.toNat).take 1) := by
  unfold pyIdx
  rw [if_pos h0]
  have hlt : i.toNat < l.length := by omega
  rw [List.get?_eq_getElem?, List.getElem?_eq_getElem hlt]
  rw [List.drop_eq_getElem_cons hlt]
  rfl

theorem convertUwiCore_of_long_clean (l : List Char)
    (h14 : 14 ≤ (l.filter Char.isAlphanum).length)
    (hw : listContains ['W', '4'] (l.filter Char.isAlphanum) = false) :
    convertUwiCore l = some (petrinexFixedOffsets (l.filter Char.isAlphanum)) := by
  set clean := l.filter Char.isAlphanum with hclean
  have hlen : (14 : Int) ≤ (clean.length : Int) := by exact_mod_cast h14
  have h2 : (2 : Int) < (clean.length : Int) := by omega
  have h3 : (3 : Int) < (clean.length : Int) := by omega
  have h6 : (6 : Int) < (clean.length : Int) := by omega
  have h9 : (9 : Int) < (clean.length : Int) := by omega
  have h11 : (11 : Int) < (clean.length : Int) := by omega
  have h13 : (13 : Int) < (clean.length : Int) := by omega
  have hoff : (0 : Int) ⊔ (14 - (clean.length : Int)) = 0 := max_eq_left (by omega)
  unfold convertUwiCore
  rw [← hclean]
  rw [if_neg (by simp [hw])]
  simp only [hoff, Int.sub_zero, if_pos h2, if_pos h3, if_pos h6, if_pos h9,
    if_pos h11, if_pos h13,
    pyIdx_singleton clean 2 (by omega) h2,
    pySlice_eq_drop_take clean 3 6 (by omega) (by omega) (by omega),
    pySlice_eq_drop_take clean 6 9 (by omega) (by omega) (by omega),
    pySlice_eq_drop_take clean 9 11 (by omega) (by omega) (by omega),
    pySlice_eq_drop_take clean 11 13 (by omega) (by omega) (by omega),
    pySliceFrom_eq_drop clean 13 (by omega) (by omega)]
  rfl

/-! ## Claims about the identifier codec -/

/-- C5: for every licence string L and every two-character prefix, the
registry standardization (drop two characters, strip spaces) of the
prefixed form equals the status-listing standardization (strip spaces) of
L itself: both converge to the same canonical string. -/
theorem registry_status_standardization_agree (p L : String) (h : p.length = 2) :
    standardize_st1_license (p ++ L) = standardize_st37_license L := by
  obtain ⟨pl⟩ := p
  obtain ⟨ll⟩ := L
  simp only [String.length_mk] at h
  simp only [standardize_st1_license, standardize_st37_license,
    standardize_st1_core, standardize_st37_core]
  congr 1
  have hd : (String.mk pl ++ String.mk ll).data = pl ++ ll := String.data_append _ _
  rw [hd, List.drop_left' h]

/-- Witness for C5 at the prefix "W " and the licence " 1000 ". -/
theorem registry_status_standardization_agree_witness :
    ("W " : String).length = 2 ∧
      standardize_st1_license ("W " ++ " 1000 ") = standardize_st37_license " 1000 " :=
  ⟨by decide, registry_status_standardization_agree "W " " 1000 " (by decide)⟩

/-- C6: the display-format conversion maps the three documented sample
inputs to the documented outputs, without warnings. -/
theorem display_conversion_samples :
    convert_display_uwi (some "00/06-06-001-01W4/2") = (some "100060600101W402", false) ∧
    convert_display_uwi (some "00/06-06-001-01W4/0") = (some "100060600101W400", false) ∧
    convert_display_uwi (some "00/05-05-001-01W4/0") = (some "100050500101W400", false) := by
  decide

/-- C8: both conversion functions return a None input and an empty-string
input unchanged, and signal only a warning in both cases. -/
theorem conversions_null_empty_unchanged :
    convert_display_uwi none = (none, true) ∧
    convert_display_uwi (some "") = (some "", true) ∧
    convert_uwi none = (none, true) ∧
    convert_uwi (some "") = (some "", true) := by
  decide

/-- C9: the display-format conversion is idempotent on its own output: when
the result of converting x is in production format (starts with 1 and
contains W4, the well-formedness the short-circuit recognises), converting
the result again leaves it unchanged. -/
theorem display_conversion_idempotent (x : String) (hx : x ≠ "")
    (h1 : (convertDisplayCore x.data).head? = some '1')
    (h2 : listContains ['W', '4'] (convertDisplayCore x.data) = true) :
    (convert_display_uwi ((convert_display_uwi (some x)).1)).1 =
      (convert_display_uwi (some x)).1 := by
  set y := convertDisplayCore x.data with hy
  have hfx : (convert_display_uwi (some x)).1 = some (String.mk y) := by
    simp [convert_display_uwi, if_neg hx, hy]
  rw [hfx]
  have hynil : y ≠ [] := by
    intro h; rw [h] at h1; simp at h1
  have hne : String.mk y ≠ "" := by
    intro h
    exact hynil (by simpa using congrArg String.data h)
  have hfilter : y.filter Char.isAlphanum = y :=
    List.filter_eq_self.mpr (fun a ha => convertDisplayCore_all_isAlphanum x.data a (hy ▸ ha))
  have hcore : convertDisplayCore y = y := by
    unfold convertDisplayCore
    rw [hfilter]
    rw [if_pos ⟨h1, h2⟩]
  simp only [convert_display_uwi, if_neg hne]
  rw [hcore]

/-- Witness for C9 at the sample display identifier. -/
theorem display_conversion_idempotent_witness :
    (convert_display_uwi ((convert_display_uwi (some "00/06-06-001-01W4/2")).1)).1 =
      (convert_display_uwi (some "00/06-06-001-01W4/2")).1 :=
  display_conversion_idempotent "00/06-06-001-01W4/2" (by decide) (by decide) (by decide)

/-- C10: every non-empty input with no alphanumeric character at all
converts to the fixed string 01: the stripped form is empty, the 1 prefix
is added, and the zero is inserted before that single character. -/
theorem display_conversion_nonalnum_01 (s : String) (hne : s ≠ "") (h : ∀ c ∈ s.data, ¬ c.isAlphanum) :
    (convert_display_uwi (some s)).1 = some "01" := by
  have hfilter : s.data.filter Char.isAlphanum = [] :=
    List.filter_eq_nil_iff.mpr (fun a ha => by simpa using h a ha)
  simp only [convert_display_uwi, if_neg hne]
  have hcore : convertDisplayCore s.data = ['0', '1'] := by
    simp [convertDisplayCore, hfilter]
  rw [hcore]

/-- Witness for C10 at the input consisting of one slash. -/
theorem display_conversion_nonalnum_01_witness :
    (convert_display_uwi (some "/")).1 = some "01" :=
  display_conversion_nonalnum_01 "/" (by decide) (by decide)

/-- C7 counterexample: the raw-format conversion does not return inputs
that are shorter than 14 characters after stripping unchanged — the length
guard in the source tests the raw input instead. This 14-character input
strips to 13 alphanumeric characters, yet it is converted (with the
dynamic offset) rather than returned unchanged, and no warning is given. -/
theorem raw_conversion_strip_length_cex :
    (("0014010606002-".data.filter Char.isAlphanum).length < 14) ∧
    (convert_uwi (some "0014010606002-")).1 = some "100061061400W402" ∧
    (convert_uwi (some "0014010606002-")).1 ≠ some "0014010606002-" ∧
    (convert_uwi (some "0014010606002-")).2 = false := by
  decide

/-- C7 amended: the raw-format conversion requires the raw input (before
stripping) to have length at least 14, returning shorter raw inputs
unchanged with a warning; for inputs whose cleaned form has length at
least 14 and no W4, it parses the fixed-offset components meridian(1),
range(3), township(3), section(2), lsd(2), event(remainder) and
reassembles them as 1 + lsd + section + township.zfill(3) +
range.zfill(2) + meridian + W4 + event.zfill(2); raw inputs of length at
least 14 whose cleaned form contains W4 are returned as the cleaned value. -/
theorem raw_conversion_amended (s : String) :
    (s.length < 14 → (convert_uwi (some s)).1 = some s) ∧
    (14 ≤ (s.data.filter Char.isAlphanum).length →
      listContains ['W', '4'] (s.data.filter Char.isAlphanum) = false →
      (convert_uwi (some s)).1 =
        some (String.mk (petrinexFixedOffsets (s.data.filter Char.isAlphanum)))) ∧
    (14 ≤ s.length → listContains ['W', '4'] (s.data.filter Char.isAlphanum) = true →
      (convert_uwi (some s)).1 = some (String.mk (s.data.filter Char.isAlphanum))) := by
  refine ⟨fun h => ?_, fun h14 hw => ?_, fun h14 hw => ?_⟩
  · simp [convert_uwi, h]
  · have hsl : (s.data.filter Char.isAlphanum).length ≤ s.data.length :=
      List.length_filter_le _ _
    have hlen : s.length = s.data.length := rfl
    have hcond : ¬(s = "" ∨ s.length < 14) := by
      push_neg
      refine ⟨fun he => ?_, by omega⟩
      subst he
      simp at h14
    simp only [convert_uwi, if_neg hcond]
    rw [convertUwiCore_of_long_clean s.data h14 hw]
  · have hcond : ¬(s = "" ∨ s.length < 14) := by
      push_neg
      refine ⟨fun he => ?_, by omega⟩
      subst he
      simp at h14
    simp only [convert_uwi, if_neg hcond]
    have hcore : convertUwiCore s.data = some (s.data.filter Char.isAlphanum) := by
      unfold convertUwiCore
      rw [if_pos (by simp [hw])]
    rw [hcore]

/-- Witness for C7 amended: one input per clause — a 13-character input is
returned unchanged, a clean 14-character input is reassembled with the
fixed offsets, and a W4-containing input is returned cleaned. -/
theorem raw_conversion_amended_witness :
    (convert_uwi (some "0014010606002")).1 = some "0014010606002" ∧
    (convert_uwi (some "00140106060021")).1 =
      some (String.mk (petrinexFixedOffsets ("00140106060021".data.filter Char.isAlphanum))) ∧
    (convert_uwi (some "001401060600W4")).1 =
      some (String.mk ("001401060600W4".data.filter Char.isAlphanum)) :=
  ⟨(raw_conversion_amended "0014010606002").1 (by decide),
   (raw_conversion_amended "00140106060021").2.1 (by decide) (by decide),
   (raw_conversion_amended "001401060600W4").2.2 (by decide) (by decide)⟩

/-! ## A small typed table model for the polars operations used

A cell is a string, an integer or null; a table is a column-name list plus
a row-major list of cells. Only the operations the pipeline uses are
modelled; operations that can raise in polars are modelled in Except. -/

/-- A cell value of a table column. -/
inductive Val where
  | str : String → Val
  | int : Int → Val
  | null : Val
deriving DecidableEq

/-- Whether a cell is null. -/
def Val.isNull : Val → Bool
  | .null => true
  | _ => false

/-- A data frame: column names and row-major cells. -/
structure DF where
  cols : List String
  rows : List (List Val)
deriving DecidableEq

/-- Uncaught exceptions of the pipeline. -/
inductive PErr where
  | columnNotFound : String → PErr
  | shapeError : PErr
  | attributeError : PErr
deriving DecidableEq

/-- Row count. -/
def DF.height (df : DF) : Nat := df.rows.length

/-- Column presence. -/
def DF.hasCol (df : DF) (c : String) : Bool := df.cols.contains c

/-- Position of a column. -/
def DF.colIdx (df : DF) (c : String) : Option Nat :=
  df.cols.findIdx? (fun x => decide (x = c))

/-- Value of a named column in one row (columns are resolved before use, so
the default never surfaces). -/
def rowGet (cols : List String) (row : List Val) (c : String) : Val :=
  match cols.findIdx? (fun x => decide (x = c)) with
  | some i => row.getD i Val.null
  | none => Val.null

/-- The cells of a named column; none when the column is absent. -/
def DF.column (df : DF) (c : String) : Option (List Val) :=
  (df.colIdx c).map (fun i => df.rows.map (fun r => r.getD i Val.null))

/-- with_columns with a per-row expression and an alias: replace the column
when present, else append it. -/
def DF.withColumn (df : DF) (name : String) (f : List Val → Val) : DF :=
  match df.colIdx name with
  | some i => ⟨df.cols, df.rows.map (fun r => r.set i (f r))⟩
  | none => ⟨df.cols ++ [name], df.rows.map (fun r => r ++ [f r])⟩

/-- with_columns with a whole-column value list (window expressions). -/
def DF.setColVals (df : DF) (name : String) (vals : List Val) : DF :=
  match df.colIdx name with
  | some i => ⟨df.cols, List.zipWith (fun r v => r.set i v) df.rows vals⟩
  | none => ⟨df.cols ++ [name], List.zipWith (fun r v => r ++ [v]) df.rows vals⟩

/-- filter with a per-row predicate. -/
def DF.filterRows (df : DF) (p : List Val → Bool) : DF :=
  ⟨df.cols, df.rows.filter p⟩

/-- rename with a mapping of old to new names. -/
def DF.rename (df : DF) (m : List (String × String)) : DF :=
  ⟨df.cols.map (fun c =>
    match m.find? (fun p => decide (p.1 = c)) with
    | some p => p.2
    | none => c), df.rows⟩

/-- drop of one column. -/
def DF.dropCol (df : DF) (c : String) : DF :=
  match df.colIdx c with
  | some i => ⟨df.cols.eraseIdx i, df.rows.map (fun r => r.eraseIdx i)⟩
  | none => df

/-- Left outer join on one key each side: every left row is kept, matching
right rows multiply it, non-matching right columns become null; the right
key column is dropped and colliding right column names get the polars
_right suffix. Null keys match nothing (polars joins skip nulls). -/
def DF.joinLeft (l r : DF) (lk rk : String) : DF :=
  let li := (l.colIdx lk).getD 0
  let ri := (r.colIdx rk).getD 0
  let kept := r.cols.enum.filter (fun p => decide (p.1 ≠ ri))
  let keptNames := kept.map (fun p =>
    if l.cols.contains p.2 then p.2 ++ "_right" else p.2)
  ⟨l.cols ++ keptNames,
   l.rows.flatMap (fun lr =>
     let k := lr.getD li Val.null
     let ms := if k.isNull then []
       else r.rows.filter (fun rr => decide (rr.getD ri Val.null = k))
     match ms with
     | [] => [lr ++ List.replicate kept.length Val.null]
     | ms => ms.map (fun rr => lr ++ kept.map (fun p => rr.getD p.1 Val.null)))⟩

/-- Lexicographic codepoint order on character lists (the order polars
uses for a Utf8 column such as ProductionMonth). -/
def charListLt : List Char → List Char → Bool
  | [], [] => false
  | [], _ :: _ => true
  | _ :: _, [] => false
  | a :: as, b :: bs =>
    if a.toNat < b.toNat then true
    else if b.toNat < a.toNat then false
    else charListLt as bs

/-- Lexicographic maximum of two strings. -/
def strMax (a b : String) : String :=
  if charListLt a.data b.data then b else a

/-- max of two cells, ignoring null (strings compare lexicographically,
as polars does for a Utf8 column such as ProductionMonth). -/
def valMax2 (a b : Val) : Val :=
  match a, b with
  | .null, v => v
  | .str s1, .str s2 => .str (strMax s1 s2)
  | .int n1, .int n2 => .int (max n1 n2)
  | v, _ => v

/-- Series.max: fold of valMax2, null on an all-null or empty column. -/
def valsMax (l : List Val) : Val := l.foldl valMax2 Val.null

/-- Sum aggregation over cells: integers are added, nulls ignored. -/
def valsSum (l : List Val) : Val :=
  .int (l.foldl (fun acc v =>
    match v with
    | .int n => acc + n
    | _ => acc) 0)

/-- Distinct values in order of first appearance (polars group order). -/
def dedupFirstAux (seen : List Val) : List Val → List Val
  | [] => []
  | x :: rest =>
    if seen.any (fun y => decide (y = x)) then dedupFirstAux seen rest
    else x :: dedupFirstAux (x :: seen) rest

/-- Distinct values in order of first appearance. -/
def dedupFirst (l : List Val) : List Val := dedupFirstAux [] l

/-- Name of a pivoted column derived from a cell value. -/
def pivotColName : Val → String
  | .str s => s
  | .int n => toString n
  | .null => "null"

/-- pivot with the sum aggregate: one row per distinct index value, one
column per distinct spread value, cell = sum of the value column over the
matching rows, null for an absent combination. -/
def DF.pivotSum (df : DF) (index spread values : String) : DF :=
  let ii := (df.colIdx index).getD 0
  let ci := (df.colIdx spread).getD 0
  let vi := (df.colIdx values).getD 0
  let keys := dedupFirst (df.rows.map (fun r => r.getD ii Val.null))
  let prods := dedupFirst (df.rows.map (fun r => r.getD ci Val.null))
  ⟨index :: prods.map pivotColName,
   keys.map (fun k =>
     k :: prods.map (fun p =>
       let cells := df.rows.filter (fun r =>
         decide (r.getD ii Val.null = k) && decide (r.getD ci Val.null = p))
       if cells.isEmpty then Val.null
       else valsSum (cells.map (fun r => r.getD vi Val.null))))⟩

/-! ## The pipeline of normalize.py over the table model -/

/-- standardize_st1_license as a cell expression (null propagates; licence
columns are strings, so the integer case is unreachable). -/
def standardize_st1_licenseVal : Val → Val
  | .str s => .str (String.mk (standardize_st1_core s.data))
  | .int n => .int n
  | .null => .null

/-- standardize_st37_license as a cell expression. -/
def standardize_st37_licenseVal : Val → Val
  | .str s => .str (String.mk (standardize_st37_core s.data))
  | .int n => .int n
  | .null => .null

/-- convert_display_uwi as a cell expression: map_elements skips nulls, the
inner guard returns an empty string unchanged. -/
def convert_display_uwiVal : Val → Val
  | .str s => if s = "" then .str s else .str (String.mk (convertDisplayCore s.data))
  | .int n => .int n
  | .null => .null

/-- Python str.lower() on an ASCII column name. -/
def lowerStr (s : String) : String := String.mk (s.data.map Char.toLower)

/-- prepare_petrinex_data (normalize.py lines 169-309) on an in-memory
table: read the maximum ProductionMonth (raising when the column is
absent), resolve the required columns case-insensitively (explicit
failure, ok none, when any is missing), filter to WI/OIL-or-GAS/PROD rows
(ok none when empty), rename the identifier to UWI, pivot by summing
Volume per UWI and ProductID, rename the product columns, and attach the
constant Production Month column. File output is out of scope. -/
def prepare_petrinex_data (petrinex : DF) : Except PErr (Option DF) := do
  let pmVals ← match petrinex.column "ProductionMonth" with
    | some vs => Except.ok vs
    | none => Except.error (PErr.columnNotFound "ProductionMonth")
  let latestMonth := valsMax pmVals
  let requiredColumns := ["FromToIDType", "FromToIDIdentifier", "ProductID", "ActivityID", "Volume"]
  let columnMapping := requiredColumns.filterMap (fun rc =>
    (petrinex.cols.find? (fun c => decide (lowerStr c = lowerStr rc))).map (fun c => (rc, c)))
  if columnMapping.length < requiredColumns.length then return none
  let renamed := if columnMapping.any (fun p => decide (p.1 ≠ p.2))
    then petrinex.rename (columnMapping.map (fun p => (p.2, p.1)))
    else petrinex
  let filtered := renamed.filterRows (fun r =>
    decide (rowGet renamed.cols r "FromToIDType" = Val.str "WI") &&
    (decide (rowGet renamed.cols r "ProductID" = Val.str "GAS") ||
      decide (rowGet renamed.cols r "ProductID" = Val.str "OIL")) &&
    decide (rowGet renamed.cols r "ActivityID" = Val.str "PROD"))
  if filtered.height = 0 then return none
  let prepared := filtered.rename [("FromToIDIdentifier", "UWI")]
  let pivoted := prepared.pivotSum "UWI" "ProductID" "Volume"
  let renameMap := pivoted.cols.filterMap (fun c =>
    if c ≠ "UWI" then some (c, "Latest Month " ++ c ++ " Production Volume") else none)
  let pivoted := if renameMap.isEmpty then pivoted else pivoted.rename renameMap
  let pivoted := pivoted.setColVals "Production Month"
    (List.replicate pivoted.height latestMonth)
  return some pivoted

/-- merge_st1_st37 (normalize.py lines 311-375): required-column checks
(ok none on absence), licence standardization on both sides, the
diagnostic sample(5) of each standardized column (which raises a
ShapeError when a table has fewer than 5 rows), then the left join of st1
onto st37 on Standardized_License. -/
def merge_st1_st37 (st1 st37 : DF) : Except PErr (Option DF) := do
  if ¬ st1.hasCol "License Number" then return none
  if ¬ st37.hasCol "License" then return none
  if ¬ st37.hasCol "UWI Display" then return none
  let st1s := st1.withColumn "Standardized_License"
    (fun r => standardize_st1_licenseVal (rowGet st1.cols r "License Number"))
  let st37s := st37.withColumn "Standardized_License"
    (fun r => standardize_st37_licenseVal (rowGet st37.cols r "License"))
  if st1s.height < 5 then Except.error PErr.shapeError
  else if st37s.height < 5 then Except.error PErr.shapeError
  else return some (st37s.joinLeft st1s "Standardized_License" "Standardized_License")

/-- merge_with_petrinex (normalize.py lines 378-437): returns the base
unchanged when either table or a required column is missing, otherwise
adds the converted Petrinex_UWI key, left-joins the production table onto
the base, and drops the temporary key. Never raises: every exception is
caught and the base returned. -/
def merge_with_petrinex (base : Option DF) (petrinex : Option DF) : Option DF :=
  match base, petrinex with
  | none, _ => none
  | some b, none => some b
  | some b, some p =>
    if ¬ b.hasCol "UWI Display" then some b
    else if ¬ p.hasCol "UWI" then some b
    else
      let b2 := b.withColumn "Petrinex_UWI"
        (fun r => convert_display_uwiVal (rowGet b.cols r "UWI Display"))
      some ((b2.joinLeft p "Petrinex_UWI" "UWI").dropCol "Petrinex_UWI")

/-- fill_null of the original cells with a filled column. -/
def fillNullWith (orig filled : List Val) : List Val :=
  List.zipWith (fun o f => if o.isNull then f else o) orig filled

/-- forward_fill().over(key) walk: each null cell takes the latest
preceding non-null cell of the same key. -/
def ffillGo (seen : List (Val × Val)) : List (Val × Val) → List Val
  | [] => []
  | (k, v) :: rest =>
    if v.isNull then
      (match seen.find? (fun p => decide (p.1 = k)) with
       | some p => p.2
       | none => Val.null) :: ffillGo seen rest
    else
      v :: ffillGo ((k, v) :: seen) rest

/-- forward_fill().over(key) on a column. -/
def groupFfill (keys vals : List Val) : List Val :=
  ffillGo [] (keys.zip vals)

/-- backward_fill().over(key): a forward fill on the reversed column. -/
def groupBfill (keys vals : List Val) : List Val :=
  (ffillGo [] ((keys.zip vals).reverse)).reverse

/-- One fillable column of fill_missing_values: when present, fill nulls
with the group-wise forward fill, then fill remaining nulls with the
group-wise backward fill. -/
def fillColumnStep (keys : List Val) (d : DF) (c : String) : DF :=
  if d.hasCol c then
    let vals := (d.column c).getD []
    let d1 := d.setColVals c (fillNullWith vals (groupFfill keys vals))
    let vals1 := (d1.column c).getD []
    d1.setColVals c (fillNullWith vals1 (groupBfill keys vals1))
  else d

/-- fill_missing_values (normalize.py lines 440-507): requires the
Standardized_License grouping column (returns the input unchanged when
absent), then fills UWI Display and the literal columns OIL Volume and
GAS Volume within licence groups. -/
def fill_missing_values (dfOpt : Option DF) : Option DF :=
  match dfOpt with
  | none => none
  | some df =>
    if ¬ df.hasCol "Standardized_License" then some df
    else
      let keys := (df.column "Standardized_License").getD []
      let d1 := fillColumnStep keys df "UWI Display"
      let d2 := fillColumnStep keys d1 "OIL Volume"
      let d3 := fillColumnStep keys d2 "GAS Volume"
      some d3

/-- normalize_data (normalize.py lines 510-547): prepare the production
table, fall back to the raw table when preparation fails, log the latest
Production Month (a select that raises when the column is absent), merge
licence and status, merge with the production table, fill gaps, and log
the final shape (an attribute access that raises when the merge failed
and the value is None). -/
def normalize_data (st1 st37 petrinex : DF) : Except PErr (Option DF) := do
  let prepOpt ← prepare_petrinex_data petrinex
  let prepared := prepOpt.getD petrinex
  let _latest ← match prepared.column "Production Month" with
    | some vs => Except.ok (valsMax vs)
    | none => Except.error (PErr.columnNotFound "Production Month")
  let mergedOpt ← merge_st1_st37 st1 st37
  let merged2 := merge_with_petrinex mergedOpt (some prepared)
  match fill_missing_values merged2 with
  | none => Except.error PErr.attributeError
  | some ndf => return some ndf

deriving instance DecidableEq for Except

/-! ## Concrete tables for the pipeline claims -/

/-- Production line items for one well A: two OIL volumes and one GAS
volume, all with FromToIDType WI and ActivityID PROD. -/
def c4Input : DF :=
  ⟨["ProductionMonth", "FromToIDType", "FromToIDIdentifier", "ProductID", "ActivityID", "Volume"],
   [[.str "2024-01", .str "WI", .str "A", .str "OIL", .str "PROD", .int 100],
    [.str "2024-01", .str "WI", .str "A", .str "OIL", .str "PROD", .int 50],
    [.str "2024-01", .str "WI", .str "A", .str "GAS", .str "PROD", .int 1000]]⟩

/-- A licence table of five rows with distinct licences. -/
def c1St1 : DF :=
  ⟨["License Number"],
   [[.str "W 1000"], [.str "W 2000"], [.str "W 3000"], [.str "W 4000"], [.str "W 5000"]]⟩

/-- A status table of five rows matching the licences of c1St1. -/
def c1St37 : DF :=
  ⟨["License", "UWI Display"],
   [[.str "1000", .str "00/06-06-001-01W4/0"],
    [.str "2000", .str "00/06-06-002-02W4/0"],
    [.str "3000", .str "00/06-06-003-03W4/0"],
    [.str "4000", .str "00/06-06-004-04W4/0"],
    [.str "5000", .str "00/06-06-005-05W4/0"]]⟩

/-- A production table whose only row fails the FromToIDType filter, so
aggregation returns its explicit failure value. -/
def c1Petrinex : DF :=
  ⟨["ProductionMonth", "FromToIDType", "FromToIDIdentifier", "ProductID", "ActivityID", "Volume"],
   [[.str "2024-01", .str "XX", .str "100060600101W400", .str "OIL", .str "PROD", .int 100]]⟩

/-- A one-row licence table with the required column. -/
def c3Licence : DF := ⟨["License Number"], [[.str "W 1000"]]⟩

/-- A one-row status table with the required columns. -/
def c3Status : DF := ⟨["License", "UWI Display"], [[.str "1000", .str "00/06-06-001-01W4/0"]]⟩

/-- A merged table with one licence group of three rows where only the
middle row carries the aggregation-produced volume column. -/
def c2Cex : DF :=
  ⟨["Standardized_License", "Latest Month OIL Production Volume"],
   [[.str "1000", .null], [.str "1000", .int 150], [.str "1000", .null]]⟩

/-- A merged table with one licence group of three rows where only the
middle row carries UWI Display and OIL Volume values. -/
def c2Group3 (v : Int) : DF :=
  ⟨["Standardized_License", "UWI Display", "OIL Volume"],
   [[.str "1000", .null, .null],
    [.str "1000", .str "00/06-06-001-01W4/0", .int v],
    [.str "1000", .null, .null]]⟩

/-- The aggregated table expected for c4Input. -/
def c4Expected : DF :=
  ⟨["UWI", "Latest Month OIL Production Volume",
    "Latest Month GAS Production Volume", "Production Month"],
   [[.str "A", .int 150, .int 1000, .str "2024-01"]]⟩

/-- The merged licence and status table expected for c1St1 and c1St37. -/
def c1Merged : DF :=
  ⟨["License", "UWI Display", "Standardized_License", "License Number"],
   [[.str "1000", .str "00/06-06-001-01W4/0", .str "1000", .str "W 1000"],
    [.str "2000", .str "00/06-06-002-02W4/0", .str "2000", .str "W 2000"],
    [.str "3000", .str "00/06-06-003-03W4/0", .str "3000", .str "W 3000"],
    [.str "4000", .str "00/06-06-004-04W4/0", .str "4000", .str "W 4000"],
    [.str "5000", .str "00/06-06-005-05W4/0", .str "5000", .str "W 5000"]]⟩

/-! ## Claims about the pipeline -/

/-- C4: production aggregation pivots to one row per UWI and sums Volume
per (UWI, ProductID): the line items for well A with OIL volumes 100 and
50 and GAS volume 1000 aggregate to exactly one row with OIL 150 and
GAS 1000. -/
theorem production_aggregation_sample :
    prepare_petrinex_data c4Input = Except.ok (some c4Expected) ∧
    c4Expected.height = 1 ∧
    rowGet c4Expected.cols (c4Expected.rows.getD 0 []) "UWI" = .str "A" ∧
    rowGet c4Expected.cols (c4Expected.rows.getD 0 [])
      "Latest Month OIL Production Volume" = .int 150 ∧
    rowGet c4Expected.cols (c4Expected.rows.getD 0 [])
      "Latest Month GAS Production Volume" = .int 1000 := by
  decide

/-- C1: when production aggregation fails, normalize_data does not degrade
gracefully — the fallback assigns the raw production table, and the very
next statement selects the Production Month column that only prepared
tables have, raising ColumnNotFoundError; here the merge of licence and
status succeeds on its own insufficient to save the run. -/
theorem normalize_data_fallback_raises :
    merge_st1_st37 c1St1 c1St37 = Except.ok (some c1Merged) ∧
    prepare_petrinex_data c1Petrinex = Except.ok none ∧
    normalize_data c1St1 c1St37 c1Petrinex =
      Except.error (PErr.columnNotFound "Production Month") := by
  refine ⟨by decide, by decide, by decide⟩

/-- C3: merge_st1_st37 raises a ShapeError on tables with fewer than five
rows: the diagnostic sample(5) of the standardized licence column cannot
sample five rows from a one-row table, so no merged row count exists for
this licence/status pair at all. -/
theorem merge_small_tables_shape_error :
    merge_st1_st37 c3Licence c3Status = Except.error PErr.shapeError ∧
    c3Status.height = 1 := by
  decide

/-- C2 counterexample: fill_missing_values leaves the aggregation-produced
column Latest Month OIL Production Volume untouched — only the literal
columns OIL Volume and GAS Volume are in its fillable set — so in a
three-row licence group with the volume on the middle row only, the
other rows stay null. -/
theorem gap_fill_latest_month_cex :
    fill_missing_values (some c2Cex) = some c2Cex ∧
    rowGet c2Cex.cols (c2Cex.rows.getD 0 []) "Latest Month OIL Production Volume" = .null ∧
    rowGet c2Cex.cols (c2Cex.rows.getD 1 []) "Latest Month OIL Production Volume" = .int 150 ∧
    rowGet c2Cex.cols (c2Cex.rows.getD 2 []) "Latest Month OIL Production Volume" = .null := by
  decide

set_option maxHeartbeats 2000000 in
/-- C2 amended: for the fillable columns that are present — UWI Display and
the literal OIL Volume — a licence group of three rows with the value only
on the middle row is completely filled by the forward then backward fill:
all three rows carry the volume and the identifier afterwards. -/
theorem gap_fill_group_fill_amended (v : Int) :
    fill_missing_values (some (c2Group3 v)) =
      some ⟨["Standardized_License", "UWI Display", "OIL Volume"],
        [[.str "1000", .str "00/06-06-001-01W4/0", .int v],
         [.str "1000", .str "00/06-06-001-01W4/0", .int v],
         [.str "1000", .str "00/06-06-001-01W4/0", .int v]]⟩ := by
  rfl

end WellData
